import Mathlib

/-!
Verification of the family-activity backend against its specification.

The definitions below are a shallow embedding of the Python sources:
  - src/simple_google_collector.py   (namespace SG)
  - src/multi_city_smart_collector.py (namespace MC)
  - src/google_places_enhanced.py     (namespace EG)
  - src/app.py                        (namespace API, plus the relational schema)

Python strings are Lean Strings; Python `kw in s` is `strHas s kw`;
`s.lower()` is `lowerStr s` (ASCII lowercase, as Python for the inputs at
hand); dict rows are structures with Option fields for keys that may be
absent; SQLite tables are lists of row structures with explicit id counters.
-/

/-- Substring test on character lists: does `p` occur inside the second list? -/
def strHasAux (p : List Char) : List Char → Bool
  | [] => p.isEmpty
  | l@(_ :: t) => p.isPrefixOf l || strHasAux p t

/-- Python `pat in s` (substring containment). -/
def strHas (s pat : String) : Bool := strHasAux pat.toList s.toList

/-- ASCII lowercase of a character (Python str.lower on ASCII input). -/
def lowerChar (c : Char) : Char :=
  if c.toNat ≥ 65 && c.toNat ≤ 90 then Char.ofNat (c.toNat + 32) else c

/-- Python `s.lower()` for the ASCII strings this code handles. -/
def lowerStr (s : String) : String := String.mk (s.toList.map lowerChar)

/-- Python `x in l` for lists, as a Bool. -/
def memB (x : String) (l : List String) : Bool := decide (x ∈ l)

/-- Python `address.split(", ")`, specialised to the single separator the code uses. -/
def splitCS : List Char → List Char → List (List Char)
  | [], acc => [acc.reverse]
  | ',' :: ' ' :: rest, acc => acc.reverse :: splitCS rest []
  | c :: rest, acc => splitCS rest (c :: acc)

/-- A raw Google Places record as the collectors read it: every field is read
with `place.get`, so absent keys are `Option`/defaulted, never errors. -/
structure RawPlace where
  name : Option String
  types : List String
  rating : Option ℚ
  user_ratings_total : ℤ
  formatted_address : String
  place_id : String
  lat : Option ℚ
  lng : Option ℚ
  open_now : Option Bool
deriving DecidableEq

namespace SG

/-- simple_google_collector.py: family_keywords of is_family_friendly. -/
def familyKeywords : List String :=
  ["children", "kids", "family", "playground", "park", "museum",
   "library", "aquarium", "zoo", "science", "discovery", "nature"]

/-- simple_google_collector.py: family_types of is_family_friendly. -/
def familyTypes : List String :=
  ["museum", "park", "library", "aquarium", "zoo", "amusement_park",
   "tourist_attraction", "point_of_interest"]

/-- SimpleGooglePlacesCollector.is_family_friendly. -/
def is_family_friendly (p : RawPlace) : Bool :=
  let nl := lowerStr (p.name.getD "")
  familyKeywords.any (fun k => strHas nl k) ||
    p.types.any (fun t => memB t familyTypes)

/-- SimpleGooglePlacesCollector.determine_activity_type. -/
def determine_activity_type (place_types : List String) (name : String) : String :=
  let nl := lowerStr name
  if memB "museum" place_types || memB "library" place_types then "educational"
  else if memB "park" place_types || memB "playground" place_types || strHas nl "park" then
    "outdoor"
  else if memB "aquarium" place_types || memB "zoo" place_types then "educational"
  else if strHas nl "amusement" || strHas nl "fun" then "recreational"
  else "recreational"

end SG

/-- A cost estimate record: category plus optional min/max price. -/
structure CostInfo where
  category : String
  min_price : Option ℤ
  max_price : Option ℤ
deriving DecidableEq

namespace SG

/-- SimpleGooglePlacesCollector.estimate_cost. -/
def estimate_cost (place_types : List String) (name : String) : CostInfo :=
  let nl := lowerStr name
  if memB "park" place_types || memB "library" place_types ||
      strHas nl "park" || strHas nl "library" then
    ⟨"free", some 0, some 0⟩
  else if memB "museum" place_types || memB "aquarium" place_types ||
      memB "zoo" place_types then
    ⟨"medium", some 15, some 25⟩
  else ⟨"low", some 5, some 15⟩

/-- SimpleGooglePlacesCollector.generate_tags. -/
def generate_tags (place_types : List String) (name : String) : List String :=
  let nl := lowerStr name
  let t1 := if memB "museum" place_types then ["indoor", "educational", "rainy_day"] else []
  let t2 := if memB "park" place_types || strHas nl "park" then
    ["outdoor", "nature", "playground"] else []
  let t3 := if memB "library" place_types || strHas nl "library" then
    ["indoor", "educational", "free", "reading"] else []
  let t4 := if memB "aquarium" place_types || memB "zoo" place_types then
    ["animals", "educational"] else []
  let t5 := ["family_friendly"]
  let t6 := if strHas nl "children" || strHas nl "kids" then ["kid_focused"] else []
  (t1 ++ t2 ++ t3 ++ t4 ++ t5 ++ t6).dedup

/-- SimpleGooglePlacesCollector.extract_city. -/
def extract_city (address : String) : String :=
  if address = "" then "Unknown"
  else if strHas address "Berkeley" then "Berkeley"
  else if strHas address "San Francisco" then "San Francisco"
  else if strHas address "Oakland" then "Oakland"
  else if strHas address "San Jose" then "San Jose"
  else if strHas address "Sausalito" then "Sausalito"
  else
    let parts := (splitCS address.toList []).map String.mk
    if 2 ≤ parts.length then
      if 2 < parts.length then parts.getD (parts.length - 3) ""
      else parts.getD (parts.length - 2) ""
    else "Bay Area"

/-- SimpleGooglePlacesCollector.generate_description: per-type canned sentence. -/
def descFor (t : String) : Option String :=
  if t = "museum" then some "Explore fascinating exhibits and interactive displays."
  else if t = "park" then some "Enjoy outdoor activities and beautiful natural surroundings."
  else if t = "library" then some "Discover books, programs, and educational activities."
  else if t = "aquarium" then some "Marvel at marine life and underwater worlds."
  else if t = "zoo" then some "Meet amazing animals from around the world."
  else none

/-- SimpleGooglePlacesCollector.generate_description. -/
def generate_description (_name : String) (place_types : List String) : String :=
  match place_types.findSome? descFor with
  | some d => d
  | none => "A wonderful family destination with activities for all ages."

end SG

/-- The enriched record built by SimpleGooglePlacesCollector.enhance_place_data. -/
structure SGPlace where
  name : String
  description : String
  activity_type : String
  rating : ℚ
  review_count : ℤ
  address : String
  city : String
  latitude : Option ℚ
  longitude : Option ℚ
  place_id : String
  cost_category : String
  price_min : Option ℤ
  price_max : Option ℤ
  tags : List String
  is_open_now : Bool
deriving DecidableEq

namespace SG

/-- SimpleGooglePlacesCollector.enhance_place_data. Every field is read with
a defaulting `get`, so the try block raises nothing for a dict-shaped input:
a missing name becomes the default string, and the result is always `some`. -/
def enhance_place_data (p : RawPlace) : Option SGPlace :=
  let name := p.name.getD "Unknown Place"
  let rating := p.rating.getD 4
  let activity_type := determine_activity_type p.types name
  let cost := estimate_cost p.types name
  let city := extract_city p.formatted_address
  some
    { name := name
      description := "Family-friendly " ++ activity_type ++ " venue in " ++ city ++
        ". " ++ generate_description name p.types
      activity_type := activity_type
      rating := rating
      review_count := p.user_ratings_total
      address := p.formatted_address
      city := city
      latitude := p.lat
      longitude := p.lng
      place_id := p.place_id
      cost_category := cost.category
      price_min := cost.min_price
      price_max := cost.max_price
      tags := generate_tags p.types name
      is_open_now := p.open_now.getD true }

end SG

namespace MC

/-- multi_city_smart_collector.py: exclude_keywords of is_family_suitable. -/
def excludeKeywords : List String :=
  ["bar", "pub", "nightclub", "casino", "dispensary",
   "adult", "lounge", "cocktail", "wine bar", "brewery"]

/-- multi_city_smart_collector.py: family_keywords of is_family_suitable. -/
def familyKeywords : List String :=
  ["children", "kids", "family", "playground", "park", "museum",
   "library", "aquarium", "zoo", "science", "discovery", "nature",
   "community", "recreation", "school", "learning", "educational",
   "theater", "cinema", "bowling", "ice cream", "pizza", "bakery",
   "swimming", "sports", "trail", "beach", "garden"]

/-- multi_city_smart_collector.py: family_types of is_family_suitable. -/
def familyTypes : List String :=
  ["museum", "park", "library", "aquarium", "zoo", "amusement_park",
   "tourist_attraction", "point_of_interest", "establishment",
   "community_center", "movie_theater", "bowling_alley", "restaurant",
   "food", "store", "school", "campground"]

/-- MultiCitySmartCollector.is_family_suitable: exclusions are checked first,
then family keywords in the name, then family place types. -/
def is_family_suitable (p : RawPlace) : Bool :=
  let nl := lowerStr (p.name.getD "")
  if excludeKeywords.any (fun k => strHas nl k) then false
  else if familyKeywords.any (fun k => strHas nl k) then true
  else if p.types.any (fun t => memB t familyTypes) then true
  else false

/-- MultiCitySmartCollector.determine_activity_type (the lowercased name is
computed by the Python but never consulted: all branches test types only). -/
def determine_activity_type (place_types : List String) (_name : String) : String :=
  if memB "museum" place_types || memB "library" place_types ||
      memB "university" place_types || memB "school" place_types then "educational"
  else if memB "park" place_types || memB "campground" place_types then "outdoor"
  else if memB "restaurant" place_types || memB "food" place_types ||
      memB "meal_takeaway" place_types then "dining"
  else if memB "amusement_park" place_types || memB "bowling_alley" place_types ||
      memB "movie_theater" place_types then "recreational"
  else "recreational"

end MC

/-- One entry of the duration_rules table in calculate_smart_duration. -/
structure DurationInfo where
  duration_minutes : ℤ
  duration_category : String
  time_slots : List String
deriving DecidableEq

namespace MC

/-- duration_rules["quick"]. -/
def quickInfo : DurationInfo := ⟨45, "30-60 min", ["morning", "afternoon", "evening"]⟩

/-- duration_rules["short"]. -/
def shortInfo : DurationInfo := ⟨90, "1-2 hrs", ["morning", "afternoon"]⟩

/-- duration_rules["medium"]. -/
def mediumInfo : DurationInfo := ⟨180, "2-4 hrs", ["morning", "afternoon"]⟩

/-- duration_rules["long"]. -/
def longInfo : DurationInfo := ⟨300, "4+ hrs", ["morning"]⟩

/-- duration_rules["quick"].indicators. -/
def quickNames : List String := ["ice cream", "cafe", "quick", "snack", "treat", "bakery"]

/-- duration_rules["short"].indicators. -/
def shortNames : List String := ["bowling", "movie", "small museum", "library", "playground"]

/-- duration_rules["medium"].indicators. -/
def mediumNames : List String := ["museum", "zoo", "aquarium", "park", "trail", "shopping", "beach"]

/-- duration_rules["long"].indicators. -/
def longNames : List String := ["amusement park", "large park", "campus", "hiking", "all day"]

/-- Name contains a quick-duration indicator. -/
def nameQuick (name : String) : Bool := quickNames.any (fun k => strHas (lowerStr name) k)

/-- Name contains a short-duration indicator. -/
def nameShort (name : String) : Bool := shortNames.any (fun k => strHas (lowerStr name) k)

/-- Name contains a medium-duration indicator. -/
def nameMedium (name : String) : Bool := mediumNames.any (fun k => strHas (lowerStr name) k)

/-- Name contains a long-duration indicator. -/
def nameLong (name : String) : Bool := longNames.any (fun k => strHas (lowerStr name) k)

/-- First place-type branch of calculate_smart_duration: restaurant, food or
meal_takeaway types give the quick rule. -/
def typeQuick (place_types : List String) : Bool :=
  memB "restaurant" place_types || memB "food" place_types ||
    memB "meal_takeaway" place_types

/-- Second place-type branch: movie_theater or bowling_alley give the short rule. -/
def typeShort (place_types : List String) : Bool :=
  memB "movie_theater" place_types || memB "bowling_alley" place_types

/-- Third place-type branch: museum, aquarium or zoo give the medium rule. -/
def typeMedium (place_types : List String) : Bool :=
  memB "museum" place_types || memB "aquarium" place_types || memB "zoo" place_types

/-- Fourth place-type branch: amusement_park or campground give the long rule. -/
def typeLong (place_types : List String) : Bool :=
  memB "amusement_park" place_types || memB "campground" place_types

/-- Size heuristic of the park branch: the lowercased name mentions regional,
state, national or large. -/
def bigParkName (name : String) : Bool :=
  strHas (lowerStr name) "regional" || strHas (lowerStr name) "state" ||
    strHas (lowerStr name) "national" || strHas (lowerStr name) "large"

/-- Any of the place-type duration branches of calculate_smart_duration applies
(restaurant/food/meal_takeaway, movie_theater/bowling_alley, museum/aquarium/zoo,
amusement_park/campground, or park). -/
def typeMatchAny (place_types : List String) : Bool :=
  typeQuick place_types || typeShort place_types || typeMedium place_types ||
    typeLong place_types || memB "park" place_types

/-- MultiCitySmartCollector.calculate_smart_duration: name indicators are tried
first in dict insertion order (quick, short, medium, long), then place types,
then the default by activity type. -/
def calculate_smart_duration (place_types : List String) (name : String)
    (activity_type : String) : DurationInfo :=
  if nameQuick name then quickInfo
  else if nameShort name then shortInfo
  else if nameMedium name then mediumInfo
  else if nameLong name then longInfo
  else if typeQuick place_types then quickInfo
  else if typeShort place_types then shortInfo
  else if typeMedium place_types then mediumInfo
  else if typeLong place_types then longInfo
  else if memB "park" place_types then
    if bigParkName name then longInfo else mediumInfo
  else if activity_type = "dining" then quickInfo
  else if activity_type = "educational" then mediumInfo
  else if activity_type = "outdoor" then mediumInfo
  else shortInfo

/-- MultiCitySmartCollector.estimate_cost. -/
def estimate_cost (place_types : List String) (name : String) : CostInfo :=
  let nl := lowerStr name
  if memB "park" place_types || memB "library" place_types ||
      strHas nl "park" || strHas nl "library" || strHas nl "free" || strHas nl "trail" then
    ⟨"free", some 0, some 0⟩
  else if strHas nl "ice cream" || strHas nl "cafe" || strHas nl "fast food" then
    ⟨"low", some 5, some 15⟩
  else if memB "museum" place_types || memB "movie_theater" place_types ||
      memB "bowling_alley" place_types then
    ⟨"medium", some 15, some 35⟩
  else if strHas nl "amusement" || strHas nl "theme park" then
    ⟨"high", some 35, some 80⟩
  else ⟨"low", some 5, some 25⟩

/-- MultiCitySmartCollector.generate_comprehensive_tags. -/
def generate_comprehensive_tags (place_types : List String) (name : String)
    (activity_type : String) (d : DurationInfo) : List String :=
  let nl := lowerStr name
  let t1 :=
    if strHas d.duration_category "30-60 min" then ["quick_visit", "short_activity"]
    else if strHas d.duration_category "1-2 hrs" then ["short_visit", "half_day"]
    else if strHas d.duration_category "2-4 hrs" then ["longer_visit", "half_day"]
    else if strHas d.duration_category "4+" then ["full_day", "all_day"]
    else []
  let t2 :=
    (if memB "morning" d.time_slots then ["morning_activity"] else []) ++
    (if memB "afternoon" d.time_slots then ["afternoon_activity"] else []) ++
    (if memB "evening" d.time_slots then ["evening_activity"] else [])
  let t3 :=
    if activity_type = "educational" then ["learning", "educational", "indoor"]
    else if activity_type = "outdoor" then ["outdoor", "nature", "fresh_air"]
    else if activity_type = "recreational" then ["fun", "entertainment"]
    else if activity_type = "dining" then ["food", "treats", "indoor"]
    else []
  let t4 :=
    (if memB "museum" place_types || memB "library" place_types ||
        memB "movie_theater" place_types || memB "bowling_alley" place_types ||
        memB "restaurant" place_types then ["rainy_day"] else []) ++
    (if memB "park" place_types || memB "beach" place_types ||
        memB "trail" place_types then ["sunny_day", "good_weather"] else [])
  let t5 :=
    (if strHas nl "children" || strHas nl "kids" || strHas nl "toddler" then
      ["kid_focused"] else []) ++
    (if strHas nl "playground" then ["playground", "active_play"] else [])
  let t6 := ["family_friendly"]
  (t1 ++ t2 ++ t3 ++ t4 ++ t5 ++ t6).dedup

/-- MultiCitySmartCollector.generate_description: per-type sentence with the
name and city interpolated, else a generic template. -/
def generate_description (name : String) (place_types : List String)
    (city : String) : String :=
  match place_types.findSome? (fun t =>
    if t = "museum" then
      some ("Discover fascinating exhibits and interactive displays at " ++ name ++
        " in " ++ city ++ ".")
    else if t = "park" then
      some ("Enjoy outdoor fun and beautiful surroundings at " ++ name ++
        " in " ++ city ++ ".")
    else if t = "restaurant" then
      some ("Family-friendly dining experience at " ++ name ++ " in " ++ city ++ ".")
    else if t = "library" then
      some ("Educational programs and activities at " ++ name ++ " in " ++ city ++ ".")
    else none) with
  | some d => d
  | none =>
    "Family-friendly destination at " ++ name ++ " in " ++ city ++
      ". Perfect for creating memories together."

end MC

/-- The enriched record built by MultiCitySmartCollector.enhance_place_with_duration. -/
structure MCPlace where
  name : String
  description : String
  activity_type : String
  rating : ℚ
  review_count : ℤ
  address : String
  city : String
  latitude : Option ℚ
  longitude : Option ℚ
  place_id : String
  cost_category : String
  price_min : Option ℤ
  price_max : Option ℤ
  duration_minutes : ℤ
  duration_category : String
  time_slots : List String
  tags : List String
  is_open_now : Bool
  popularity_score : ℤ
deriving DecidableEq

namespace MC

/-- MultiCitySmartCollector.enhance_place_with_duration. As in the simple
collector, every read is a defaulting `get`: a missing name becomes the
default string and the try block never raises, so the result is always `some`. -/
def enhance_place_with_duration (p : RawPlace) (city_name : String) : Option MCPlace :=
  let name := p.name.getD "Unknown Place"
  let rating := p.rating.getD 4
  let activity_type := determine_activity_type p.types name
  let d := calculate_smart_duration p.types name activity_type
  let cost := estimate_cost p.types name
  some
    { name := name
      description := generate_description name p.types city_name
      activity_type := activity_type
      rating := min rating 5
      review_count := p.user_ratings_total
      address := p.formatted_address
      city := city_name
      latitude := p.lat
      longitude := p.lng
      place_id := p.place_id
      cost_category := cost.category
      price_min := cost.min_price
      price_max := cost.max_price
      duration_minutes := d.duration_minutes
      duration_category := d.duration_category
      time_slots := d.time_slots
      tags := generate_comprehensive_tags p.types name activity_type d
      is_open_now := p.open_now.getD true
      popularity_score := min p.user_ratings_total 100 }

end MC

/-- The age/activity hints attached to a search keyword or place type in
google_places_enhanced.py. -/
structure AgeInfo where
  activity_type : String
  min_age : ℤ
  max_age : ℤ
deriving DecidableEq

namespace EG

/-- EnhancedGooglePlacesCollector.determine_pricing. -/
def determine_pricing (price_level : Option ℤ) (types : List String) : CostInfo :=
  match price_level with
  | none =>
    if memB "park" types || memB "library" types || memB "playground" types then
      ⟨"free", some 0, some 0⟩
    else ⟨"unknown", none, none⟩
  | some pl =>
    if pl = 0 then ⟨"free", some 0, some 0⟩
    else if pl = 1 then ⟨"low", some 5, some 15⟩
    else if pl = 2 then ⟨"medium", some 15, some 30⟩
    else if pl = 3 then ⟨"high", some 30, some 60⟩
    else if pl = 4 then ⟨"very_high", some 60, some 100⟩
    else ⟨"unknown", none, none⟩

/-- google_places_enhanced.py: type_tag_mapping of generate_comprehensive_tags. -/
def typeTagMap (t : String) : List String :=
  if t = "amusement_park" then ["fun", "rides", "exciting"]
  else if t = "aquarium" then ["marine_life", "educational", "animals"]
  else if t = "art_gallery" then ["art", "culture", "creative"]
  else if t = "bowling_alley" then ["sports", "indoor", "social"]
  else if t = "library" then ["reading", "educational", "quiet", "free"]
  else if t = "museum" then ["educational", "interactive", "learning"]
  else if t = "park" then ["outdoor", "nature", "playground", "free"]
  else if t = "zoo" then ["animals", "educational", "outdoor"]
  else []

/-- EnhancedGooglePlacesCollector.generate_comprehensive_tags. Its inputs are
the place record fields it actually reads plus the age_info dict. Note: this
variant never appends a family_friendly tag. -/
def generate_comprehensive_tags (types : List String) (ai : AgeInfo)
    (wheelchair : Bool) (rating : ℚ) (review_total : ℤ) (open_now : Bool) :
    List String :=
  let t0 := [ai.activity_type]
  let t1 := (types.map typeTagMap).flatten
  let t2 :=
    (if ai.min_age ≤ 2 then ["toddler_friendly"] else []) ++
    (if ai.min_age ≤ 5 then ["preschool_friendly"] else []) ++
    (if 12 ≤ ai.max_age then ["school_age_friendly"] else []) ++
    (if 16 ≤ ai.max_age then ["teen_friendly"] else [])
  let t3 := if wheelchair then ["wheelchair_accessible"] else []
  let t4 :=
    (if (4.5 : ℚ) ≤ rating then ["highly_rated"] else []) ++
    (if 100 < review_total then ["popular"] else [])
  let t5 := if open_now then ["open_now"] else []
  (t0 ++ t1 ++ t2 ++ t3 ++ t4 ++ t5).dedup

end EG

/-- A row of the activities table (create_tables in app.py). The table has an
AUTOINCREMENT primary key and no UNIQUE constraint on title or any other
column, so INSERT OR REPLACE in the collectors never finds a conflicting row
and always inserts a fresh one. Columns not set by the collectors take their
schema defaults (duration_minutes 120, popularity_score 0). -/
structure ActivityRow where
  id : ℤ
  title : String
  description : String
  activity_type : String
  cost_category : String
  price_min : Option ℤ
  price_max : Option ℤ
  duration_minutes : ℤ
  rating : ℚ
  popularity_score : ℤ
  is_active : Bool
deriving DecidableEq

/-- A row of the venues table (no UNIQUE constraint on name or google_place_id). -/
structure VenueRow where
  id : ℤ
  name : String
  address : String
  city : String
  latitude : Option ℚ
  longitude : Option ℚ
  rating : ℚ
  google_place_id : String
  venue_type : String
  is_open_now : Bool
deriving DecidableEq

/-- A row of the tags table (name is UNIQUE). -/
structure TagRow where
  id : ℤ
  name : String
deriving DecidableEq

/-- The relational store: activities, venues, tags, and the two junction
tables (pairs of ids, each with a UNIQUE constraint on the pair), plus the
AUTOINCREMENT counters. -/
structure DB where
  activities : List ActivityRow
  venues : List VenueRow
  tags : List TagRow
  activity_venues : List (ℤ × ℤ)
  activity_tags : List (ℤ × ℤ)
  nextActivityId : ℤ
  nextVenueId : ℤ
  nextTagId : ℤ
deriving DecidableEq

/-- The freshly created database. -/
def emptyDB : DB := ⟨[], [], [], [], [], 1, 1, 1⟩

/-- INSERT into activities by SimpleGooglePlacesCollector.save_place_to_db
(the OR REPLACE clause is inert: no uniqueness constraint can fire). -/
def insertActivitySG (e : SGPlace) (db : DB) : DB × ℤ :=
  let aid := db.nextActivityId
  ({ db with
      activities := db.activities ++
        [⟨aid, e.name, e.description, e.activity_type, e.cost_category,
          e.price_min, e.price_max, 120, e.rating, 0, true⟩]
      nextActivityId := aid + 1 }, aid)

/-- INSERT into venues by SimpleGooglePlacesCollector.save_place_to_db. -/
def insertVenueSG (e : SGPlace) (db : DB) : DB × ℤ :=
  let vid := db.nextVenueId
  ({ db with
      venues := db.venues ++
        [⟨vid, e.name, e.address, e.city, e.latitude, e.longitude, e.rating,
          e.place_id, e.activity_type, true⟩]
      nextVenueId := vid + 1 }, vid)

/-- INSERT into activities by MultiCitySmartCollector.save_place_to_db
(also sets duration_minutes and popularity_score). -/
def insertActivityMC (e : MCPlace) (db : DB) : DB × ℤ :=
  let aid := db.nextActivityId
  ({ db with
      activities := db.activities ++
        [⟨aid, e.name, e.description, e.activity_type, e.cost_category,
          e.price_min, e.price_max, e.duration_minutes, e.rating,
          e.popularity_score, true⟩]
      nextActivityId := aid + 1 }, aid)

/-- INSERT into venues by MultiCitySmartCollector.save_place_to_db. -/
def insertVenueMC (e : MCPlace) (db : DB) : DB × ℤ :=
  let vid := db.nextVenueId
  ({ db with
      venues := db.venues ++
        [⟨vid, e.name, e.address, e.city, e.latitude, e.longitude, e.rating,
          e.place_id, e.activity_type, true⟩]
      nextVenueId := vid + 1 }, vid)

/-- INSERT OR IGNORE INTO activity_venues: the UNIQUE(activity_id, venue_id)
constraint makes a duplicate pair a silent no-op. -/
def linkAV (db : DB) (aid vid : ℤ) : DB :=
  if (aid, vid) ∈ db.activity_venues then db
  else { db with activity_venues := db.activity_venues ++ [(aid, vid)] }

/-- SELECT id FROM tags WHERE name = ?. -/
def findTag (db : DB) (n : String) : Option ℤ :=
  (db.tags.find? (fun t => t.name == n)).map (·.id)

/-- INSERT INTO tags (name) VALUES (?). -/
def createTag (db : DB) (n : String) : DB × ℤ :=
  let tid := db.nextTagId
  ({ db with tags := db.tags ++ [⟨tid, n⟩], nextTagId := tid + 1 }, tid)

/-- INSERT OR IGNORE INTO activity_tags under UNIQUE(activity_id, tag_id). -/
def linkAT (db : DB) (aid tid : ℤ) : DB :=
  if (aid, tid) ∈ db.activity_tags then db
  else { db with activity_tags := db.activity_tags ++ [(aid, tid)] }

/-- One iteration of the tag loop of save_place_to_db: get-or-create the tag
row, then link it to the activity. -/
def tagStep (aid : ℤ) (db : DB) (tn : String) : DB :=
  match findTag db tn with
  | some tid => linkAT db aid tid
  | none => linkAT (createTag db tn).1 aid (createTag db tn).2

/-- The successful body of save_place_to_db, shared by both collectors:
insert the activity, insert the venue, link them, then run the tag loop. -/
def saveBody (insA insV : DB → DB × ℤ) (tags : List String) (db : DB) : DB :=
  let aid := (insA db).2
  let db1 := (insA db).1
  let vid := (insV db1).2
  let db2 := (insV db1).1
  let db3 := linkAV db2 aid vid
  tags.foldl (tagStep aid) db3

/-- SimpleGooglePlacesCollector.save_place_to_db when no statement raises. -/
def SG.save_place_to_db (db : DB) (e : SGPlace) : DB :=
  saveBody (insertActivitySG e) (insertVenueSG e) e.tags db

/-- MultiCitySmartCollector.save_place_to_db when no statement raises. -/
def MC.save_place_to_db (db : DB) (e : MCPlace) : DB :=
  saveBody (insertActivityMC e) (insertVenueMC e) e.tags db

/-- The body of the collection loop of collect_real_places for one raw place:
filter by is_family_friendly, enrich, and persist the enriched record. -/
def SG.process_place (db : DB) (p : RawPlace) : DB :=
  if SG.is_family_friendly p then
    match SG.enhance_place_data p with
    | some e => SG.save_place_to_db db e
    | none => db
  else db

/-- The collection loop of collect_real_places over a batch of raw places. -/
def SG.collect_batch (db : DB) (places : List RawPlace) : DB :=
  places.foldl SG.process_place db

/-- Failure model for the try block of save_place_to_db: `failAt = some n`
means the n-th executed SQL statement (0-based) raises an exception; `none`
means no statement raises. `doStmt` executes one statement. -/
def doStmt (failAt : Option ℕ) (c : ℕ) : Except Unit ℕ :=
  if failAt = some c then Except.error () else Except.ok (c + 1)

/-- The tag loop of save_place_to_db under the failure model: each SELECT,
INSERT and INSERT OR IGNORE is one counted statement. -/
def tagLoopF (failAt : Option ℕ) (aid : ℤ) : List String → ℕ → DB → Except Unit (DB × ℕ)
  | [], c, db => Except.ok (db, c)
  | tn :: rest, c, db =>
    match doStmt failAt c with
    | Except.error _ => Except.error ()
    | Except.ok c1 =>
      match findTag db tn with
      | some tid =>
        match doStmt failAt c1 with
        | Except.error _ => Except.error ()
        | Except.ok c2 => tagLoopF failAt aid rest c2 (linkAT db aid tid)
      | none =>
        match doStmt failAt c1 with
        | Except.error _ => Except.error ()
        | Except.ok c2 =>
          match doStmt failAt c2 with
          | Except.error _ => Except.error ()
          | Except.ok c3 =>
            tagLoopF failAt aid rest c3 (linkAT (createTag db tn).1 aid (createTag db tn).2)

/-- The whole transaction of save_place_to_db under the failure model:
activity insert, venue insert, junction insert, tag loop, then COMMIT
(itself a statement that may fail). -/
def saveTxn (failAt : Option ℕ) (insA insV : DB → DB × ℤ) (tags : List String)
    (db : DB) : Except Unit DB :=
  match doStmt failAt 0 with
  | Except.error _ => Except.error ()
  | Except.ok c1 =>
    let aid := (insA db).2
    let db1 := (insA db).1
    match doStmt failAt c1 with
    | Except.error _ => Except.error ()
    | Except.ok c2 =>
      let vid := (insV db1).2
      let db2 := (insV db1).1
      match doStmt failAt c2 with
      | Except.error _ => Except.error ()
      | Except.ok c3 =>
        let db3 := linkAV db2 aid vid
        match tagLoopF failAt aid tags c3 db3 with
        | Except.error _ => Except.error ()
        | Except.ok (db4, c4) =>
          match doStmt failAt c4 with
          | Except.error _ => Except.error ()
          | Except.ok _ => Except.ok db4

/-- save_place_to_db with its try/except/rollback: a raised exception makes
conn.rollback() restore the pre-call state, otherwise the commit publishes
the transaction result. -/
def saveWithFail (failAt : Option ℕ) (insA insV : DB → DB × ℤ) (tags : List String)
    (db : DB) : DB :=
  match saveTxn failAt insA insV tags db with
  | Except.ok db' => db'
  | Except.error _ => db

/-- MultiCitySmartCollector.save_place_to_db under the failure model. -/
def MC.save_with_fail (failAt : Option ℕ) (db : DB) (e : MCPlace) : DB :=
  saveWithFail failAt (insertActivityMC e) (insertVenueMC e) e.tags db

/-- SimpleGooglePlacesCollector.save_place_to_db under the failure model. -/
def SG.save_with_fail (failAt : Option ℕ) (db : DB) (e : SGPlace) : DB :=
  saveWithFail failAt (insertActivitySG e) (insertVenueSG e) e.tags db

namespace API

/-- The duration display formatter inside get_activities (app.py): the
if/elif chain mapping duration_minutes to a display label and a category. -/
def format_duration (m : ℤ) : String × String :=
  if m ≤ 45 then ("30-45 min", "quick")
  else if m ≤ 90 then ("1-1.5 hrs", "short")
  else if m ≤ 180 then ("2-3 hrs", "medium")
  else if m ≤ 300 then ("4-5 hrs", "long")
  else ("All day", "full_day")

/-- Index of the display bucket chosen by format_duration, in threshold order. -/
def bucketIdx (m : ℤ) : ℕ :=
  if m ≤ 45 then 0
  else if m ≤ 90 then 1
  else if m ≤ 180 then 2
  else if m ≤ 300 then 3
  else 4

/-- The five display labels in threshold order. -/
def bucketLabels : List String :=
  ["30-45 min", "1-1.5 hrs", "2-3 hrs", "4-5 hrs", "All day"]

/-- SQLite `s LIKE '%pat%'`: substring match, case-insensitive for ASCII. -/
def likeContains (s pat : String) : Bool := strHas (lowerStr s) (lowerStr pat)

/-- The venues joined to an activity through activity_venues (the JOIN of
get_activities). -/
def joinRows (db : DB) (a : ActivityRow) : List VenueRow :=
  (db.activity_venues.filter (fun pr => pr.1 == a.id)).filterMap
    (fun pr => db.venues.find? (fun v => v.id == pr.2))

/-- The joined venues that survive the `v.city LIKE '%location%'` filter. -/
def matchingVenues (db : DB) (a : ActivityRow) (loc : String) : List VenueRow :=
  (joinRows db a).filter (fun v => likeContains v.city loc)

/-- Result ordering of get_activities under the default sort key:
ORDER BY a.rating DESC, a.popularity_score DESC. -/
def resultLE (x y : ActivityRow × VenueRow) : Prop :=
  y.1.rating < x.1.rating ∨
    (x.1.rating = y.1.rating ∧ y.1.popularity_score ≤ x.1.popularity_score)

instance : DecidableRel resultLE := fun x y =>
  decidable_of_iff
    (y.1.rating < x.1.rating ∨
      (x.1.rating = y.1.rating ∧ y.1.popularity_score ≤ x.1.popularity_score))
    Iff.rfl

instance : IsTotal (ActivityRow × VenueRow) resultLE := by
  constructor
  intro x y
  rcases lt_trichotomy x.1.rating y.1.rating with h | h | h
  · exact Or.inr (Or.inl h)
  · rcases le_total y.1.popularity_score x.1.popularity_score with hp | hp
    · exact Or.inl (Or.inr ⟨h, hp⟩)
    · exact Or.inr (Or.inr ⟨h.symm, hp⟩)
  · exact Or.inl (Or.inl h)

instance : IsTrans (ActivityRow × VenueRow) resultLE := by
  constructor
  intro a b c hab hbc
  rcases hab with h1 | ⟨h1, h1p⟩ <;> rcases hbc with h2 | ⟨h2, h2p⟩
  · exact Or.inl (h2.trans h1)
  · exact Or.inl (h2 ▸ h1)
  · exact Or.inl (h1 ▸ h2)
  · exact Or.inr ⟨h1.trans h2, h2p.trans h1p⟩

/-- One GROUP BY a.id output row of get_activities under the FREE facet:
the activity must be active, must join at least one venue surviving the
city LIKE filter (the group representative), and must pass the HAVING
condition a.cost_category = 'free'. -/
def groupRow (db : DB) (loc : String) (a : ActivityRow) :
    Option (ActivityRow × VenueRow) :=
  if a.is_active then
    match matchingVenues db a loc with
    | [] => none
    | v :: _ => if a.cost_category = "free" then some (a, v) else none
  else none

/-- get_activities for `location` with the single facet filter FREE and the
default sort key: WHERE a.is_active = 1 AND v.city LIKE '%location%',
GROUP BY a.id, HAVING a.cost_category = 'free', ORDER BY rating DESC,
popularity DESC, LIMIT 50. -/
def get_activities_free (db : DB) (loc : String) : List (ActivityRow × VenueRow) :=
  ((db.activities.filterMap (groupRow db loc)).insertionSort resultLE).take 50

end API

/-- A raw place lacking the name key (types make it pass the family filters). -/
def namelessPark (rest : List String) : RawPlace :=
  ⟨none, "park" :: rest, none, 0, "", "", none, none, none⟩

/-- The raw place of the rejection scenario, with arbitrary remaining fields. -/
def joesNightclub (r : Option ℚ) (rc : ℤ) (addr pid : String)
    (lat lng : Option ℚ) (o : Option Bool) : RawPlace :=
  ⟨some "Joe\x27s Nightclub Bar", ["bar"], r, rc, addr, pid, lat, lng, o⟩

/-- A concrete normalized record for exercising the persistence step. -/
def sampleSG : SGPlace :=
  ⟨"Tilden Nature Area", "Hiking trails and a nature center.", "outdoor", 4, 100,
   "Berkeley Hills, Berkeley, CA", "Berkeley", none, none, "gp_tilden",
   "free", some 0, some 0, ["outdoor", "family_friendly"], true⟩

/-- A store whose only venue has city spelled in capitals. -/
def dbCaps : DB :=
  ⟨[⟨1, "Reading Room", "Story hour.", "educational", "free", some 0, some 0,
     45, 4, 10, true⟩],
   [⟨1, "Main Library", "1 Shattuck Ave", "BERKELEY", none, none, 4, "gp_lib",
     "educational", true⟩],
   [], [(1, 1)], [], 2, 2, 1⟩

/-- A store with one active free Berkeley activity. -/
def dbWitness : DB :=
  ⟨[⟨1, "Adventure Playground", "Build and play.", "outdoor", "free", some 0, some 0,
     120, 4, 75, true⟩],
   [⟨1, "Berkeley Marina", "160 University Ave", "North Berkeley", none, none, 4,
     "gp_marina", "outdoor", true⟩],
   [], [(1, 1)], [], 2, 2, 1⟩

/-- The single row dbWitness should return. -/
def rowWitness : ActivityRow × VenueRow :=
  (⟨1, "Adventure Playground", "Build and play.", "outdoor", "free", some 0, some 0,
    120, 4, 75, true⟩,
   ⟨1, "Berkeley Marina", "160 University Ave", "North Berkeley", none, none, 4,
    "gp_marina", "outdoor", true⟩)

/-- Claim C4: for every duration_minutes value, the display-bucket formatter
in the /api/activities handler is total and yields exactly one of the five
fixed labels by the stated thresholds (at most 45 gives "30-45 min", at most
90 gives "1-1.5 hrs", at most 180 gives "2-3 hrs", at most 300 gives
"4-5 hrs", larger gives "All day"), and the bucket chosen is monotonic in
the input. -/
theorem C4_display_buckets (m n : ℤ) :
    (API.format_duration m).1 ∈ API.bucketLabels ∧
    (m ≤ 45 → (API.format_duration m).1 = "30-45 min") ∧
    (45 < m → m ≤ 90 → (API.format_duration m).1 = "1-1.5 hrs") ∧
    (90 < m → m ≤ 180 → (API.format_duration m).1 = "2-3 hrs") ∧
    (180 < m → m ≤ 300 → (API.format_duration m).1 = "4-5 hrs") ∧
    (300 < m → (API.format_duration m).1 = "All day") ∧
    (API.format_duration m).1 = API.bucketLabels.getD (API.bucketIdx m) "" ∧
    (m ≤ n → API.bucketIdx m ≤ API.bucketIdx n) := by
  refine ⟨?_, ?_, ?_, ?_, ?_, ?_, ?_, ?_⟩
  · unfold API.format_duration API.bucketLabels
    split_ifs <;> simp
  · intro h
    unfold API.format_duration
    split_ifs <;> first | rfl | omega
  · intro h1 h2
    unfold API.format_duration
    split_ifs <;> first | rfl | omega
  · intro h1 h2
    unfold API.format_duration
    split_ifs <;> first | rfl | omega
  · intro h1 h2
    unfold API.format_duration
    split_ifs <;> first | rfl | omega
  · intro h
    unfold API.format_duration
    split_ifs <;> first | rfl | omega
  · unfold API.format_duration API.bucketIdx API.bucketLabels
    split_ifs <;> rfl
  · intro h
    unfold API.bucketIdx
    split_ifs <;> omega

/-- Witness for C4 at concrete inputs 40 and 400. -/
theorem C4_display_buckets_witness :
    (API.format_duration 40).1 = "30-45 min" ∧
    (API.format_duration 400).1 = "All day" ∧
    API.bucketIdx 40 ≤ API.bucketIdx 400 :=
  ⟨(C4_display_buckets 40 400).2.1 (by decide),
   (C4_display_buckets 400 40).2.2.2.2.2.1 (by decide),
   (C4_display_buckets 40 400).2.2.2.2.2.2.2 (by decide)⟩

/-- Claim C5: for every raw place whose types contain "park" and whose price
level is absent, the cost estimator of each collector variant resolves to the
free category with price_min = price_max = 0. -/
theorem C5_park_free (types : List String) (name : String) (h : "park" ∈ types) :
    SG.estimate_cost types name = ⟨"free", some 0, some 0⟩ ∧
    MC.estimate_cost types name = ⟨"free", some 0, some 0⟩ ∧
    EG.determine_pricing none types = ⟨"free", some 0, some 0⟩ := by
  have hb : memB "park" types = true := by simp [memB, h]
  refine ⟨?_, ?_, ?_⟩ <;>
    simp [SG.estimate_cost, MC.estimate_cost, EG.determine_pricing, hb]

/-- Witness for C5 at a concrete park record. -/
theorem C5_park_free_witness :
    "park" ∈ ["park", "playground"] ∧
    (SG.estimate_cost ["park", "playground"] "Central Green" = ⟨"free", some 0, some 0⟩ ∧
     MC.estimate_cost ["park", "playground"] "Central Green" = ⟨"free", some 0, some 0⟩ ∧
     EG.determine_pricing none ["park", "playground"] = ⟨"free", some 0, some 0⟩) :=
  ⟨by decide, C5_park_free ["park", "playground"] "Central Green" (by decide)⟩

/-- Claim C8: the raw place named Joes Nightclub Bar with types ["bar"] is
rejected by both family-suitability predicates whatever its rating and other
fields are, and the simple collector therefore leaves the store untouched
for it (never enriched or persisted). -/
theorem C8_nightclub_rejected (r : Option ℚ) (rc : ℤ) (addr pid : String)
    (lat lng : Option ℚ) (o : Option Bool) (db : DB) :
    MC.is_family_suitable (joesNightclub r rc addr pid lat lng o) = false ∧
    SG.is_family_friendly (joesNightclub r rc addr pid lat lng o) = false ∧
    SG.process_place db (joesNightclub r rc addr pid lat lng o) = db := by
  refine ⟨rfl, rfl, ?_⟩
  have h : SG.is_family_friendly (joesNightclub r rc addr pid lat lng o) = false := rfl
  simp [SG.process_place, h]

/-- Claim C9: the place classifier is total, always lands in the four-value
activity-type set, and falls back to "recreational" when neither a category
nor a name keyword matches, in both collector variants. -/
theorem C9_classifier_total (types : List String) (name : String) :
    SG.determine_activity_type types name ∈
      ["outdoor", "educational", "dining", "recreational"] ∧
    MC.determine_activity_type types name ∈
      ["outdoor", "educational", "dining", "recreational"] ∧
    (memB "museum" types = false → memB "library" types = false →
     memB "park" types = false → memB "playground" types = false →
     strHas (lowerStr name) "park" = false →
     memB "aquarium" types = false → memB "zoo" types = false →
     strHas (lowerStr name) "amusement" = false →
     strHas (lowerStr name) "fun" = false →
     SG.determine_activity_type types name = "recreational") ∧
    (memB "museum" types = false → memB "library" types = false →
     memB "university" types = false → memB "school" types = false →
     memB "park" types = false → memB "campground" types = false →
     memB "restaurant" types = false → memB "food" types = false →
     memB "meal_takeaway" types = false →
     memB "amusement_park" types = false → memB "bowling_alley" types = false →
     memB "movie_theater" types = false →
     MC.determine_activity_type types name = "recreational") := by
  refine ⟨?_, ?_, ?_, ?_⟩
  · simp only [SG.determine_activity_type]
    split_ifs <;> decide
  · simp only [MC.determine_activity_type]
    split_ifs <;> decide
  · intro h1 h2 h3 h4 h5 h6 h7 h8 h9
    simp [SG.determine_activity_type, h1, h2, h3, h4, h5, h6, h7, h8, h9]
  · intro h1 h2 h3 h4 h5 h6 h7 h8 h9 h10 h11 h12
    simp [MC.determine_activity_type, h1, h2, h3, h4, h5, h6, h7, h8, h9, h10, h11, h12]

/-- Witness for C9 on a record matching no category and no name keyword. -/
theorem C9_classifier_total_witness :
    SG.determine_activity_type ["church"] "St Mary Cathedral" = "recreational" ∧
    MC.determine_activity_type ["church"] "St Mary Cathedral" = "recreational" :=
  ⟨(C9_classifier_total ["church"] "St Mary Cathedral").2.2.1 (by decide) (by decide)
      (by decide) (by decide) (by decide) (by decide) (by decide) (by decide) (by decide),
   (C9_classifier_total ["church"] "St Mary Cathedral").2.2.2 (by decide) (by decide)
      (by decide) (by decide) (by decide) (by decide) (by decide) (by decide) (by decide)
      (by decide) (by decide) (by decide)⟩

/-- Counterexample to claim C3: the enhanced collector's tag generator never
appends family_friendly; on a plain park record it returns a tag list without
it. -/
theorem C3_counterexample :
    "family_friendly" ∉
      EG.generate_comprehensive_tags ["park"] ⟨"recreational", 3, 12⟩ false 4 0 false := by
  have h45 : ¬ ((4.5 : ℚ) ≤ 4) := by norm_num
  simp only [EG.generate_comprehensive_tags]
  simp [h45]
  decide

/-- Claim C3 as amended: the simple and multi-city tag generators always
include family_friendly and return duplicate-free lists; the enhanced
collector's generator also returns a duplicate-free list but never includes
family_friendly, for every input whose age_info activity type is one of the
values the repository constructs (recreational, educational or outdoor). -/
theorem C3_amended_tags (pt : List String) (name aty : String) (d : DurationInfo)
    (types2 : List String) (ai : AgeInfo) (w : Bool) (r : ℚ) (rt : ℤ) (o : Bool)
    (hai : ai.activity_type = "recreational" ∨ ai.activity_type = "educational" ∨
      ai.activity_type = "outdoor") :
    ("family_friendly" ∈ SG.generate_tags pt name ∧
      (SG.generate_tags pt name).Nodup) ∧
    ("family_friendly" ∈ MC.generate_comprehensive_tags pt name aty d ∧
      (MC.generate_comprehensive_tags pt name aty d).Nodup) ∧
    ((EG.generate_comprehensive_tags types2 ai w r rt o).Nodup ∧
      "family_friendly" ∉ EG.generate_comprehensive_tags types2 ai w r rt o) := by
  have hTT : ∀ t : String, "family_friendly" ∉ EG.typeTagMap t := by
    intro t
    unfold EG.typeTagMap
    split_ifs <;> decide
  refine ⟨⟨?_, List.nodup_dedup _⟩, ⟨?_, List.nodup_dedup _⟩,
    ⟨List.nodup_dedup _, ?_⟩⟩
  · simp [SG.generate_tags, List.mem_dedup]
  · simp [MC.generate_comprehensive_tags, List.mem_dedup]
  · simp only [EG.generate_comprehensive_tags, List.mem_dedup]
    refine List.not_mem_append (List.not_mem_append (List.not_mem_append
      (List.not_mem_append (List.not_mem_append ?_ ?_) ?_) ?_) ?_) ?_
    · rcases hai with h | h | h <;> rw [h] <;> decide
    · intro hmem
      rw [List.mem_flatten] at hmem
      obtain ⟨l, hl, hfl⟩ := hmem
      rw [List.mem_map] at hl
      obtain ⟨t, _, rfl⟩ := hl
      exact hTT t hfl
    · split_ifs <;> decide
    · split_ifs <;> decide
    · split_ifs <;> decide
    · split_ifs <;> decide

/-- Witness for C3 as amended, at concrete inputs with the repository's
recreational age_info value. -/
theorem C3_amended_tags_witness :
    ((⟨"recreational", 3, 12⟩ : AgeInfo).activity_type = "recreational" ∨
     (⟨"recreational", 3, 12⟩ : AgeInfo).activity_type = "educational" ∨
     (⟨"recreational", 3, 12⟩ : AgeInfo).activity_type = "outdoor") ∧
    (("family_friendly" ∈ SG.generate_tags ["park"] "Adventure Playground" ∧
      (SG.generate_tags ["park"] "Adventure Playground").Nodup) ∧
     ("family_friendly" ∈
        MC.generate_comprehensive_tags ["park"] "Adventure Playground" "outdoor"
          MC.mediumInfo ∧
      (MC.generate_comprehensive_tags ["park"] "Adventure Playground" "outdoor"
          MC.mediumInfo).Nodup) ∧
     ((EG.generate_comprehensive_tags ["park"] ⟨"recreational", 3, 12⟩ false 4 0
        false).Nodup ∧
      "family_friendly" ∉
        EG.generate_comprehensive_tags ["park"] ⟨"recreational", 3, 12⟩ false 4 0
          false)) :=
  ⟨Or.inl rfl,
   C3_amended_tags ["park"] "Adventure Playground" "outdoor" MC.mediumInfo
     ["park"] ⟨"recreational", 3, 12⟩ false 4 0 false (Or.inl rfl)⟩

/-- Claim C6: the smart duration estimator applies its ordered rule list with
first match winning. Name indicators come first (quick 45, short 90,
multi-hour 180, all-day 300 minutes); then the place-type categories in the
same order, with the park type resolved to 300 for a regional/state/national/
large name and 180 otherwise; when nothing matches, the default by activity
type gives dining 45, educational or outdoor 180, and anything else 90. -/
theorem C6_smart_duration (pt : List String) (name aty : String) :
    (MC.nameQuick name = true →
      (MC.calculate_smart_duration pt name aty).duration_minutes = 45) ∧
    (MC.nameQuick name = false → MC.nameShort name = true →
      (MC.calculate_smart_duration pt name aty).duration_minutes = 90) ∧
    (MC.nameQuick name = false → MC.nameShort name = false →
      MC.nameMedium name = true →
      (MC.calculate_smart_duration pt name aty).duration_minutes = 180) ∧
    (MC.nameQuick name = false → MC.nameShort name = false →
      MC.nameMedium name = false → MC.nameLong name = true →
      (MC.calculate_smart_duration pt name aty).duration_minutes = 300) ∧
    (MC.nameQuick name = false → MC.nameShort name = false →
      MC.nameMedium name = false → MC.nameLong name = false →
      MC.typeQuick pt = true →
      (MC.calculate_smart_duration pt name aty).duration_minutes = 45) ∧
    (MC.nameQuick name = false → MC.nameShort name = false →
      MC.nameMedium name = false → MC.nameLong name = false →
      MC.typeQuick pt = false → MC.typeShort pt = true →
      (MC.calculate_smart_duration pt name aty).duration_minutes = 90) ∧
    (MC.nameQuick name = false → MC.nameShort name = false →
      MC.nameMedium name = false → MC.nameLong name = false →
      MC.typeQuick pt = false → MC.typeShort pt = false → MC.typeMedium pt = true →
      (MC.calculate_smart_duration pt name aty).duration_minutes = 180) ∧
    (MC.nameQuick name = false → MC.nameShort name = false →
      MC.nameMedium name = false → MC.nameLong name = false →
      MC.typeQuick pt = false → MC.typeShort pt = false → MC.typeMedium pt = false →
      MC.typeLong pt = true →
      (MC.calculate_smart_duration pt name aty).duration_minutes = 300) ∧
    (MC.nameQuick name = false → MC.nameShort name = false →
      MC.nameMedium name = false → MC.nameLong name = false →
      MC.typeQuick pt = false → MC.typeShort pt = false → MC.typeMedium pt = false →
      MC.typeLong pt = false → memB "park" pt = true →
      ((MC.bigParkName name = true →
        (MC.calculate_smart_duration pt name aty).duration_minutes = 300) ∧
       (MC.bigParkName name = false →
        (MC.calculate_smart_duration pt name aty).duration_minutes = 180))) ∧
    (MC.nameQuick name = false → MC.nameShort name = false →
      MC.nameMedium name = false → MC.nameLong name = false →
      MC.typeMatchAny pt = false →
      ((aty = "dining" →
        (MC.calculate_smart_duration pt name aty).duration_minutes = 45) ∧
       (aty = "educational" ∨ aty = "outdoor" →
        (MC.calculate_smart_duration pt name aty).duration_minutes = 180) ∧
       (aty ≠ "dining" → aty ≠ "educational" → aty ≠ "outdoor" →
        (MC.calculate_smart_duration pt name aty).duration_minutes = 90))) := by
  refine ⟨?_, ?_, ?_, ?_, ?_, ?_, ?_, ?_, ?_, ?_⟩
  · intro hq
    simp [MC.calculate_smart_duration, hq, MC.quickInfo]
  · intro hq hs
    simp [MC.calculate_smart_duration, hq, hs, MC.shortInfo]
  · intro hq hs hm
    simp [MC.calculate_smart_duration, hq, hs, hm, MC.mediumInfo]
  · intro hq hs hm hl
    simp [MC.calculate_smart_duration, hq, hs, hm, hl, MC.longInfo]
  · intro hq hs hm hl t1
    simp [MC.calculate_smart_duration, hq, hs, hm, hl, t1, MC.quickInfo]
  · intro hq hs hm hl t1 t2
    simp [MC.calculate_smart_duration, hq, hs, hm, hl, t1, t2, MC.shortInfo]
  · intro hq hs hm hl t1 t2 t3
    simp [MC.calculate_smart_duration, hq, hs, hm, hl, t1, t2, t3, MC.mediumInfo]
  · intro hq hs hm hl t1 t2 t3 t4
    simp [MC.calculate_smart_duration, hq, hs, hm, hl, t1, t2, t3, t4, MC.longInfo]
  · intro hq hs hm hl t1 t2 t3 t4 t5
    constructor
    · intro hb
      simp [MC.calculate_smart_duration, hq, hs, hm, hl, t1, t2, t3, t4, t5, hb,
        MC.longInfo]
    · intro hb
      simp [MC.calculate_smart_duration, hq, hs, hm, hl, t1, t2, t3, t4, t5, hb,
        MC.mediumInfo]
  · intro hq hs hm hl ht
    simp only [MC.typeMatchAny, Bool.or_eq_false_iff] at ht
    obtain ⟨⟨⟨⟨t1, t2⟩, t3⟩, t4⟩, t5⟩ := ht
    refine ⟨?_, ?_, ?_⟩
    · intro ha
      simp [MC.calculate_smart_duration, hq, hs, hm, hl, t1, t2, t3, t4, t5, ha,
        MC.quickInfo]
    · intro ha
      rcases ha with ha | ha <;>
        simp [MC.calculate_smart_duration, hq, hs, hm, hl, t1, t2, t3, t4, t5, ha,
          MC.mediumInfo]
    · intro h1 h2 h3
      simp [MC.calculate_smart_duration, hq, hs, hm, hl, t1, t2, t3, t4, t5,
        h1, h2, h3, MC.shortInfo]

/-- Witness for C6: a quick name indicator; the amusement_park place type; the
park type with and without a big-park name; and the three activity-type
defaults on a record with no indicators and no matching types. -/
theorem C6_smart_duration_witness :
    (MC.calculate_smart_duration [] "Ice Cream Cart" "recreational").duration_minutes = 45 ∧
    (MC.calculate_smart_duration ["amusement_park"] "Blue Door" "recreational").duration_minutes = 300 ∧
    (MC.calculate_smart_duration ["park"] "Redwood Regional Open Space" "outdoor").duration_minutes = 300 ∧
    (MC.calculate_smart_duration ["park"] "Willard Green" "outdoor").duration_minutes = 180 ∧
    (MC.calculate_smart_duration ["office"] "Blue Door" "dining").duration_minutes = 45 ∧
    (MC.calculate_smart_duration ["office"] "Blue Door" "outdoor").duration_minutes = 180 ∧
    (MC.calculate_smart_duration ["office"] "Blue Door" "recreational").duration_minutes = 90 :=
  ⟨(C6_smart_duration [] "Ice Cream Cart" "recreational").1 (by decide),
   (C6_smart_duration ["amusement_park"] "Blue Door" "recreational").2.2.2.2.2.2.2.1
      (by decide) (by decide) (by decide) (by decide) (by decide) (by decide)
      (by decide) (by decide),
   ((C6_smart_duration ["park"] "Redwood Regional Open Space" "outdoor").2.2.2.2.2.2.2.2.1
      (by decide) (by decide) (by decide) (by decide) (by decide) (by decide)
      (by decide) (by decide) (by decide)).1 (by decide),
   ((C6_smart_duration ["park"] "Willard Green" "outdoor").2.2.2.2.2.2.2.2.1
      (by decide) (by decide) (by decide) (by decide) (by decide) (by decide)
      (by decide) (by decide) (by decide)).2 (by decide),
   ((C6_smart_duration ["office"] "Blue Door" "dining").2.2.2.2.2.2.2.2.2
      (by decide) (by decide) (by decide) (by decide) (by decide)).1 rfl,
   ((C6_smart_duration ["office"] "Blue Door" "outdoor").2.2.2.2.2.2.2.2.2
      (by decide) (by decide) (by decide) (by decide) (by decide)).2.1 (Or.inr rfl),
   ((C6_smart_duration ["office"] "Blue Door" "recreational").2.2.2.2.2.2.2.2.2
      (by decide) (by decide) (by decide) (by decide) (by decide)).2.2
      (by decide) (by decide) (by decide)⟩

/-- Counterexample to claim C1: a raw place lacking a name is not rejected.
Both enrichment functions return a record (name defaulted to "Unknown Place"),
the simple collector persists it, and the batch total increases by one. -/
theorem C1_counterexample :
    (SG.enhance_place_data (namelessPark [])).isSome = true ∧
    (MC.enhance_place_with_duration (namelessPark []) "Berkeley").isSome = true ∧
    (SG.process_place emptyDB (namelessPark [])).activities.length = 1 := by
  refine ⟨rfl, rfl, ?_⟩
  decide

/-- Claim C1 as amended: for every raw place lacking a name, enrichment does
not return null; it substitutes the default name "Unknown Place" and returns
a record (null is only produced by an internal exception), and the collection
loop continues with the remaining records of the batch regardless. -/
theorem C1_amended_enrichment (p : RawPlace) (h : p.name = none) (city : String)
    (db : DB) (rest : List RawPlace) :
    (∃ e, SG.enhance_place_data p = some e ∧ e.name = "Unknown Place") ∧
    (∃ e, MC.enhance_place_with_duration p city = some e ∧ e.name = "Unknown Place") ∧
    SG.collect_batch db (p :: rest) = SG.collect_batch (SG.process_place db p) rest := by
  refine ⟨⟨_, rfl, ?_⟩, ⟨_, rfl, ?_⟩, rfl⟩ <;>
    simp [SG.enhance_place_data, MC.enhance_place_with_duration, h]

/-- Witness for C1 as amended, at the concrete nameless park record. -/
theorem C1_amended_enrichment_witness :
    (namelessPark []).name = none ∧
    ((∃ e, SG.enhance_place_data (namelessPark []) = some e ∧ e.name = "Unknown Place") ∧
     (∃ e, MC.enhance_place_with_duration (namelessPark []) "Berkeley" = some e ∧
        e.name = "Unknown Place") ∧
     SG.collect_batch emptyDB (namelessPark [] :: []) =
       SG.collect_batch (SG.process_place emptyDB (namelessPark [])) []) :=
  ⟨rfl, C1_amended_enrichment (namelessPark []) rfl "Berkeley" emptyDB []⟩

/-- Claim C2 evaluated at its failing input: the activities and venues tables
of app.py declare no UNIQUE column, so the INSERT OR REPLACE of
save_place_to_db never replaces; saving the identical normalized record twice
leaves two Activity rows and two Venue rows, not one. -/
theorem C2_double_save_duplicates :
    (SG.save_place_to_db (SG.save_place_to_db emptyDB sampleSG) sampleSG).activities.length = 2 ∧
    (SG.save_place_to_db (SG.save_place_to_db emptyDB sampleSG) sampleSG).venues.length = 2 ∧
    ((SG.save_place_to_db (SG.save_place_to_db emptyDB sampleSG) sampleSG).activities.filter
      (fun a => a.title == "Tilden Nature Area")).length = 2 := by
  decide

/-- Counterexample to claim C7 as stated: SQLite LIKE is case-insensitive for
ASCII, so a venue whose city is spelled "BERKELEY" is returned even though
its city does not contain "Berkeley" as a (case-sensitive) substring. -/
theorem C7_counterexample :
    (API.get_activities_free dbCaps "Berkeley").length = 1 ∧
    (API.get_activities_free dbCaps "Berkeley").all
      (fun r => strHas r.2.city "Berkeley") = false := by
  decide

/-- Claim C7 as amended: every row returned by get_activities for
location=Berkeley with the single FREE facet is an active activity with
cost_category "free" whose linked venue city matches "Berkeley"
case-insensitively (SQLite LIKE), and the result is ordered by rating
descending with ties broken by popularity_score descending. -/
theorem C7_amended_query (db : DB) :
    (∀ r ∈ API.get_activities_free db "Berkeley",
      r.1.is_active = true ∧ r.1.cost_category = "free" ∧
      API.likeContains r.2.city "Berkeley" = true) ∧
    List.Sorted API.resultLE (API.get_activities_free db "Berkeley") := by
  constructor
  · intro r hr
    unfold API.get_activities_free at hr
    have hr1 : r ∈ (db.activities.filterMap (API.groupRow db "Berkeley")).insertionSort
        API.resultLE := (List.take_sublist _ _).subset hr
    rw [List.mem_insertionSort] at hr1
    obtain ⟨a, _, hfa⟩ := List.mem_filterMap.mp hr1
    unfold API.groupRow at hfa
    by_cases hact : a.is_active = true
    · rw [if_pos hact] at hfa
      cases hmv : API.matchingVenues db a "Berkeley" with
      | nil =>
        rw [hmv] at hfa
        exact absurd hfa (by simp)
      | cons v rest =>
        rw [hmv] at hfa
        dsimp only at hfa
        by_cases hfree : a.cost_category = "free"
        · rw [if_pos hfree] at hfa
          obtain rfl : (a, v) = r := by
            simpa using hfa
          refine ⟨hact, hfree, ?_⟩
          have hv : v ∈ API.matchingVenues db a "Berkeley" := by
            rw [hmv]; exact List.mem_cons_self v rest
          unfold API.matchingVenues at hv
          have hpv := List.of_mem_filter hv
          simpa using hpv
        · rw [if_neg hfree] at hfa
          exact absurd hfa (by simp)
    · rw [if_neg hact] at hfa
      exact absurd hfa (by simp)
  · unfold API.get_activities_free
    exact List.Pairwise.sublist (List.take_sublist _ _)
      (List.sorted_insertionSort API.resultLE _)

/-- Witness for C7 as amended, at a concrete one-row store. -/
theorem C7_amended_query_witness :
    rowWitness ∈ API.get_activities_free dbWitness "Berkeley" ∧
    (rowWitness.1.is_active = true ∧ rowWitness.1.cost_category = "free" ∧
     API.likeContains rowWitness.2.city "Berkeley" = true) :=
  ⟨by decide, (C7_amended_query dbWitness).1 rowWitness (by decide)⟩

/-- The tag loop under the failure model either raises (propagating the
exception) or produces exactly the state of the plain tag loop. -/
theorem tagLoopF_atomic (failAt : Option ℕ) (aid : ℤ) (tags : List String) :
    ∀ (c : ℕ) (db : DB),
      tagLoopF failAt aid tags c db = Except.error () ∨
      ∃ c', tagLoopF failAt aid tags c db =
        Except.ok (tags.foldl (tagStep aid) db, c') := by
  induction tags with
  | nil => exact fun c db => Or.inr ⟨c, rfl⟩
  | cons tn rest ih =>
    intro c db
    by_cases h1 : failAt = some c
    · left
      simp [tagLoopF, doStmt, eq_true h1]
    · cases hft : findTag db tn with
      | some tid =>
        by_cases h2 : failAt = some (c + 1)
        · left
          simp [tagLoopF, doStmt, eq_false h1, eq_true h2, hft]
        · rcases ih (c + 1 + 1) (linkAT db aid tid) with he | ⟨c', hok⟩
          · left
            simp [tagLoopF, doStmt, eq_false h1, eq_false h2, hft, he]
          · right
            refine ⟨c', ?_⟩
            simp [tagLoopF, doStmt, eq_false h1, eq_false h2, hft, tagStep, hok]
      | none =>
        by_cases h2 : failAt = some (c + 1)
        · left
          simp [tagLoopF, doStmt, eq_false h1, eq_true h2, hft]
        · by_cases h3 : failAt = some (c + 1 + 1)
          · left
            simp [tagLoopF, doStmt, eq_false h1, eq_false h2, eq_true h3, hft]
          · rcases ih (c + 1 + 1 + 1)
                (linkAT (createTag db tn).1 aid (createTag db tn).2) with he | ⟨c', hok⟩
            · left
              simp [tagLoopF, doStmt, eq_false h1, eq_false h2, eq_false h3, hft, he]
            · right
              refine ⟨c', ?_⟩
              simp [tagLoopF, doStmt, eq_false h1, eq_false h2, eq_false h3, hft,
                tagStep, hok]

/-- With no injected failure the tag loop always succeeds and produces the
plain tag-loop state. -/
theorem tagLoopF_none (aid : ℤ) (tags : List String) :
    ∀ (c : ℕ) (db : DB),
      ∃ c', tagLoopF none aid tags c db =
        Except.ok (tags.foldl (tagStep aid) db, c') := by
  induction tags with
  | nil => exact fun c db => ⟨c, rfl⟩
  | cons tn rest ih =>
    intro c db
    cases hft : findTag db tn with
    | some tid =>
      obtain ⟨c', hok⟩ := ih (c + 1 + 1) (linkAT db aid tid)
      refine ⟨c', ?_⟩
      simp [tagLoopF, doStmt, hft, tagStep, hok]
    | none =>
      obtain ⟨c', hok⟩ := ih (c + 1 + 1 + 1)
        (linkAT (createTag db tn).1 aid (createTag db tn).2)
      refine ⟨c', ?_⟩
      simp [tagLoopF, doStmt, hft, tagStep, hok]

/-- The transaction either raises or produces exactly the full saved state. -/
theorem saveTxn_atomic (failAt : Option ℕ) (insA insV : DB → DB × ℤ)
    (tags : List String) (db : DB) :
    saveTxn failAt insA insV tags db = Except.error () ∨
    saveTxn failAt insA insV tags db = Except.ok (saveBody insA insV tags db) := by
  unfold saveTxn saveBody
  by_cases h1 : failAt = some 0
  · left
    simp [doStmt, eq_true h1]
  · by_cases h2 : failAt = some 1
    · left
      simp [doStmt, eq_false h1, eq_true h2]
    · by_cases h3 : failAt = some 2
      · left
        simp [doStmt, eq_false h1, eq_false h2, eq_true h3]
      · rcases tagLoopF_atomic failAt (insA db).2 tags 3
            (linkAV (insV (insA db).1).1 (insA db).2 (insV (insA db).1).2) with
          he | ⟨c', hok⟩
        · left
          simp [doStmt, eq_false h1, eq_false h2, eq_false h3, he]
        · by_cases h4 : failAt = some c'
          · left
            simp [doStmt, eq_false h1, eq_false h2, eq_false h3, hok, eq_true h4]
          · right
            simp [doStmt, eq_false h1, eq_false h2, eq_false h3, hok, eq_false h4]

/-- With no injected failure the transaction commits the full saved state. -/
theorem saveTxn_none (insA insV : DB → DB × ℤ) (tags : List String) (db : DB) :
    saveTxn none insA insV tags db = Except.ok (saveBody insA insV tags db) := by
  obtain ⟨c', hok⟩ := tagLoopF_none (insA db).2 tags 3
    (linkAV (insV (insA db).1).1 (insA db).2 (insV (insA db).1).2)
  unfold saveTxn saveBody
  simp [doStmt, hok]

/-- Claim C10: per-record persistence is atomic. Whatever SQL statement of
save_place_to_db raises (modelled by the failure schedule failAt), the
rollback leaves the database exactly as before the call, and otherwise the
commit publishes exactly the complete record (activity row, venue row,
junction link, and tag links together); with no failure the full state is
always committed. This holds for both collector variants. -/
theorem C10_save_atomic (failAt : Option ℕ) (db : DB) (p : MCPlace) (q : SGPlace) :
    (MC.save_with_fail failAt db p = db ∨
      MC.save_with_fail failAt db p = MC.save_place_to_db db p) ∧
    MC.save_with_fail none db p = MC.save_place_to_db db p ∧
    (SG.save_with_fail failAt db q = db ∨
      SG.save_with_fail failAt db q = SG.save_place_to_db db q) ∧
    SG.save_with_fail none db q = SG.save_place_to_db db q := by
  refine ⟨?_, ?_, ?_, ?_⟩
  · unfold MC.save_with_fail MC.save_place_to_db saveWithFail
    rcases saveTxn_atomic failAt (insertActivityMC p) (insertVenueMC p) p.tags db with
      h | h <;> simp [h]
  · unfold MC.save_with_fail MC.save_place_to_db saveWithFail
    simp [saveTxn_none]
  · unfold SG.save_with_fail SG.save_place_to_db saveWithFail
    rcases saveTxn_atomic failAt (insertActivitySG q) (insertVenueSG q) q.tags db with
      h | h <;> simp [h]
  · unfold SG.save_with_fail SG.save_place_to_db saveWithFail
    simp [saveTxn_none]
